import Mathlib

/-!
# Verification of the eds-avatar-bff JWT authentication pipeline

Shallow embedding of the JWT verification pipeline of `eds-avatar-bff`:
the JWKS lookup-URL construction and configuration validation
(`src/config/environment.ts`), the key-resolution callback, the
authentication gate and local token signing (`src/middleware/auth.ts`),
and the token verifier the gate drives (the external `jsonwebtoken`
library, modelled from the specification's Token Verifier description).

JavaScript strings are modelled as Lean `String`; JavaScript numbers
holding Unix timestamps, ports and millisecond durations as `Int`;
`null`/`undefined` and optional object fields as `Option`; thrown
configuration errors and fallible key resolution as `Except`.
-/

/-! ## JavaScript string primitives

The middleware relies on `String.prototype.startsWith`,
`String.prototype.slice`, `String.prototype.endsWith` (via the regex
`/\/$/`) and single-occurrence `String.prototype.replace`.  They are
embedded here over `String` as list-of-character operations so that all
theorems reduce in the kernel. -/

/-- Decidable equality for `Except`, so that concrete verification
outcomes can be settled by `decide`. -/
instance {ε α : Type} [DecidableEq ε] [DecidableEq α] : DecidableEq (Except ε α)
  | .error e, .error f =>
      if h : e = f then .isTrue (congrArg Except.error h)
      else .isFalse (fun hh => h (Except.error.inj hh))
  | .error _, .ok _ => .isFalse (fun hh => Except.noConfusion hh)
  | .ok _, .error _ => .isFalse (fun hh => Except.noConfusion hh)
  | .ok x, .ok y =>
      if h : x = y then .isTrue (congrArg Except.ok h)
      else .isFalse (fun hh => h (Except.ok.inj hh))

/-- JavaScript `s.startsWith(pre)`. -/
def strStartsWith (s pre : String) : Bool :=
  pre.toList.isPrefixOf s.toList

/-- JavaScript `s.slice(n)` for a non-negative index `n`. -/
def strDrop (s : String) (n : Nat) : String :=
  String.mk (s.toList.drop n)

/-- JavaScript `s.replace(/\/$/, '')`: remove at most one trailing slash. -/
def stripTrailingSlash (s : String) : String :=
  if s.toList.getLast? = some '/' then String.mk (s.toList.dropLast) else s

/-- Remove the first occurrence of `needle` from a character list
(JavaScript `String.prototype.replace` with a string pattern and an
empty replacement replaces only the first occurrence). -/
def dropFirstOcc (needle : List Char) : List Char → List Char
  | [] => []
  | c :: rest =>
      if needle.isPrefixOf (c :: rest) then (c :: rest).drop needle.length
      else c :: dropFirstOcc needle rest

/-- JavaScript `s.replace('https://', '')`. -/
def removeFirstHttps (s : String) : String :=
  String.mk (dropFirstOcc "https://".toList s.toList)

/-! ## JWKS lookup-URL construction (`src/middleware/auth.ts`, line 16)

The `jwks-rsa` client is initialized with
`` jwksUri: `https://${config.jwtIssuer.replace(/\/$/, '').replace('https://', '')}/.well-known/jwks.json` ``. -/

/-- The `jwksUri` string computed at module load in
`src/middleware/auth.ts` from the configured issuer. -/
def jwksUri (issuer : String) : String :=
  "https://" ++ removeFirstHttps (stripTrailingSlash issuer) ++ "/.well-known/jwks.json"

/-! ## Configuration (`src/config/environment.ts`) -/

/-- The `EnvironmentConfig` fields consumed by `validateConfig` and by
the authentication middleware (`src/types`, `src/config/environment.ts`). -/
structure EnvironmentConfig where
  port : Int
  nodeEnv : String
  jwtSecret : String
  jwtIssuer : String
  jwtAudience : String
  jwtAlgorithm : String
  jwtVerifyAlgorithms : List String
  jwksCacheMaxEntries : Int
  jwksCacheMaxAgeMs : Int
  jwksRequestTimeoutMs : Int
  deepgramTokenTtlMinutes : Int
  allowedOrigins : List String
  deriving Repr, DecidableEq

/-- The algorithm whitelist used by `validateConfig`. -/
def validAlgorithms : List String :=
  ["HS256", "HS384", "HS512", "RS256", "RS384", "RS512", "ES256", "ES384", "ES512"]

/-- The check `validateConfig` from `src/config/environment.ts` (lines 57–101),
run once at module load: the first failing check throws.  The unknown
`NODE_ENV` check only logs a warning and is omitted.  Note that no
check inspects `jwtIssuer`. -/
def validateConfig (c : EnvironmentConfig) : Except String Unit :=
  if c.jwtSecret.length < 32 then
    .error "JWT_SECRET must be at least 32 characters long"
  else if c.port < 1 ∨ c.port > 65535 then
    .error "PORT must be between 1 and 65535"
  else if c.allowedOrigins.length = 0 then
    .error "At least one allowed origin must be specified"
  else if c.deepgramTokenTtlMinutes < 1 ∨ c.deepgramTokenTtlMinutes > 1440 then
    .error "DEEPGRAM_TOKEN_TTL_MINUTES must be between 1 and 1440 minutes (24 hours)"
  else if ¬ validAlgorithms.contains c.jwtAlgorithm then
    .error "JWT_ALGORITHM must be one of the valid algorithms"
  else if (c.jwtVerifyAlgorithms.filter (fun a => ¬ validAlgorithms.contains a)) ≠ [] then
    .error "JWT_VERIFY_ALGORITHMS contains invalid algorithms"
  else if c.jwksCacheMaxEntries < 1 ∨ c.jwksCacheMaxEntries > 100 then
    .error "JWKS_CACHE_MAX_ENTRIES must be between 1 and 100"
  else if c.jwksCacheMaxAgeMs < 60000 ∨ c.jwksCacheMaxAgeMs > 3600000 then
    .error "JWKS_CACHE_MAX_AGE_MS must be between 60000ms (1 minute) and 3600000ms (1 hour)"
  else if c.jwksRequestTimeoutMs < 5000 ∨ c.jwksRequestTimeoutMs > 60000 then
    .error "JWKS_REQUEST_TIMEOUT_MS must be between 5000ms (5 seconds) and 60000ms (1 minute)"
  else
    .ok ()

/-! ## Token model

A decoded JWT: a header (declared algorithm and optional `kid`) and a
payload with the fields of the `JwtPayload` interface (`src/types`).
Signatures are modelled symbolically: signing key material is a string,
and a signature is valid exactly when it was produced over the same
algorithm, key material and payload.  "A key the resolver can fetch"
is a `kid → key material` association list. -/

/-- The JWT header fields consulted by the middleware
(`jwt.JwtHeader`): the declared algorithm and the key identifier. -/
structure JwtHeader where
  alg : String
  kid : Option String
  deriving Repr, DecidableEq

/-- The `JwtPayload` interface of `src/types`: `sub`, `email`,
optional `name`, `iat`, `exp`, `iss`, `aud`.  An absent `sub` is
modelled as the empty string (the middleware's `!payload.sub` check
treats both the same way). -/
structure JwtPayloadData where
  sub : String
  email : String
  name : Option String
  iat : Int
  exp : Int
  iss : String
  aud : String
  deriving Repr, DecidableEq

/-- Canonical serialization of a payload, used by the symbolic
signature model. -/
def serializePayload (p : JwtPayloadData) : String :=
  p.sub ++ "|" ++ p.email ++ "|" ++ (p.name.getD "") ++ "|" ++ toString p.iat ++ "|" ++
    toString p.exp ++ "|" ++ p.iss ++ "|" ++ p.aud

/-- Symbolic signature over a payload: valid verification recomputes
this value from the declared algorithm and the resolved key material
and compares. -/
def mkSignature (alg key : String) (p : JwtPayloadData) : String :=
  alg ++ ":" ++ key ++ ":" ++ serializePayload p

/-- A decoded token: header, payload and signature segment. -/
structure Token where
  header : JwtHeader
  payload : JwtPayloadData
  signature : String
  deriving Repr, DecidableEq

/-- The result of decoding a bearer-token string: either structurally
invalid (wrong segment count, bad base64/JSON) or a decoded token. -/
inductive BearerToken where
  | malformed
  | parsed (t : Token)
  deriving Repr, DecidableEq

/-! ## Key resolution (`getKey`, `src/middleware/auth.ts` lines 27–39) -/

/-- Failure kinds of the key-resolution callback: a token header with
no `kid`, or a `kid` the JWKS client cannot resolve. -/
inductive KeyError where
  | missingKid
  | notFound
  deriving Repr, DecidableEq

/-- Look up a `kid` among the keys the JWKS endpoint publishes. -/
def findKey (keys : List (String × String)) (k : String) : Option String :=
  (keys.find? (fun p => p.1 == k)).map (·.2)

/-- The callback `getKey` from `src/middleware/auth.ts`: fail if the header has no
`kid`, otherwise resolve the `kid` through the JWKS client (modelled
as the association list of fetchable keys; the client's cache and
network layers are collapsed, which no claim here distinguishes).
The `kid` check precedes any client invocation. -/
def getKey (keys : List (String × String)) (kid : Option String) : Except KeyError String :=
  match kid with
  | none => .error .missingKid
  | some k =>
      match findKey keys k with
      | none => .error .notFound
      | some key => .ok key

/-! ## Token verifier -/

/-- The verification-failure taxonomy (spec §7). -/
inductive VerifyError where
  | malformedToken
  | unacceptableAlgorithm
  | missingKeyIdentifier
  | keyResolutionFailed
  | invalidSignature
  | tokenExpired
  | invalidIssuer
  | invalidAudience
  deriving Repr, DecidableEq

/-- The human-readable reason carried by each failure kind, as the
gate interpolates it into `Token validation failed: <reason>`.
Modelled from the spec: the exact wording is produced inside the
external `jsonwebtoken` library (and, for the key kinds, by `getKey`
in `src/middleware/auth.ts` / the `jwks-rsa` client). -/
def VerifyError.message : VerifyError → String
  | .malformedToken => "jwt malformed"
  | .unacceptableAlgorithm => "invalid algorithm"
  | .missingKeyIdentifier => "Missing kid in token header"
  | .keyResolutionFailed => "Unable to find a signing key"
  | .invalidSignature => "invalid signature"
  | .tokenExpired => "jwt expired"
  | .invalidIssuer => "jwt issuer invalid"
  | .invalidAudience => "jwt audience invalid"

/-- The verification policy the middleware passes to `jwt.verify`
(`src/middleware/auth.ts` lines 54–57): audience, issuer and the
accepted-algorithms set from the configuration. -/
structure VerifyPolicy where
  audience : String
  issuer : String
  algorithms : List String
  deriving Repr, DecidableEq

/-- The verifier's environment: the policy, the keys the remote
resolver can fetch, and the current Unix time in seconds. -/
structure VerifyEnv where
  policy : VerifyPolicy
  keys : List (String × String)
  now : Int
  deriving Repr, DecidableEq

/-- Modelled from the spec: the Token Verifier (spec §4.2) is the
external `jsonwebtoken` library's `verify`, which is not part of this
repository; only its caller (`authenticateToken`) and its
key-resolution callback (`getKey`) are in `src/`.  Following spec
§4.2, the pipeline is: structural decode (`MalformedToken`), the
algorithm gate (`UnacceptableAlgorithm`, step 2, before key
resolution, step 3), key resolution through `getKey`, the signature
check, then claim validation (expiry, exact issuer match, exact
audience match).  The non-empty-subject check lives in the gate, where
`src/middleware/auth.ts` performs it.  The second component records
whether the remote key resolver was invoked (`getKey` reaching the
JWKS client lookup). -/
def verifyToken (env : VerifyEnv) (input : BearerToken) :
    Except VerifyError JwtPayloadData × Bool :=
  match input with
  | .malformed => (.error .malformedToken, false)
  | .parsed t =>
      if t.header.alg ∈ env.policy.algorithms then
        match getKey env.keys t.header.kid with
        | .error .missingKid => (.error .missingKeyIdentifier, false)
        | .error .notFound => (.error .keyResolutionFailed, true)
        | .ok key =>
            if t.signature = mkSignature t.header.alg key t.payload then
              if env.now < t.payload.exp then
                if t.payload.iss = env.policy.issuer then
                  if t.payload.aud = env.policy.audience then
                    (.ok t.payload, true)
                  else (.error .invalidAudience, true)
                else (.error .invalidIssuer, true)
              else (.error .tokenExpired, true)
            else (.error .invalidSignature, true)
      else (.error .unacceptableAlgorithm, false)

/-! ## Authentication gate (`authenticateToken`, `src/middleware/auth.ts` lines 41–84) -/

/-- A JSON response body sent by the middleware.  `statusCode` and
`code` are optional members so that their absence from the objects the
middleware actually sends is visible; the object literals at lines
46–49, 60–63 and 71–74 of `src/middleware/auth.ts` contain only
`error` and `message`. -/
structure ResponseBody where
  error : String
  message : String
  statusCode : Option Int
  code : Option String
  deriving Repr, DecidableEq

/-- The observable effect of one `authenticateToken` call: the HTTP
status and body sent (if any), the value assigned to `req.user` (if
any), whether `next()` ran, whether the verifier (`jwt.verify`) was
invoked, and whether the remote key resolver was invoked. -/
structure GateResult where
  status : Option Int
  body : Option ResponseBody
  user : Option JwtPayloadData
  nextCalled : Bool
  verifierInvoked : Bool
  resolverInvoked : Bool
  deriving Repr, DecidableEq

/-- The 401 response of the missing-token branch
(`src/middleware/auth.ts` lines 45–51). -/
def missingTokenResult : GateResult :=
  { status := some 401
    body := some { error := "Unauthorized", message := "Access token is required",
                   statusCode := none, code := none }
    user := none, nextCalled := false, verifierInvoked := false, resolverInvoked := false }

/-- Bearer-token extraction (`src/middleware/auth.ts` line 43):
`` authHeader?.startsWith('Bearer ') ? authHeader.slice(7) : null ``. -/
def extractToken (authHeader : Option String) : Option String :=
  match authHeader with
  | none => none
  | some h => if strStartsWith h "Bearer " then some (strDrop h 7) else none

/-- The middleware `authenticateToken` from `src/middleware/auth.ts` (lines 41–84),
as a function from the `Authorization` header and the verifier's
environment to its observable effect.  `parse` stands for the
structural decoding of the token string performed inside `jwt.verify`
(base64url/JSON decoding of the segments, external to this
repository).  The JavaScript `if (!token)` check catches both `null`
(header absent or not starting with `Bearer `) and the empty string. -/
def authenticateToken (env : VerifyEnv) (authHeader : Option String)
    (parse : String → BearerToken) : GateResult :=
  match extractToken authHeader with
  | none => missingTokenResult
  | some t =>
      if t = "" then missingTokenResult
      else
        match verifyToken env (parse t) with
        | (.error e, fetched) =>
            { status := some 403
              body := some { error := "Forbidden",
                             message := "Token validation failed: " ++ e.message,
                             statusCode := none, code := none }
              user := none, nextCalled := false, verifierInvoked := true,
              resolverInvoked := fetched }
        | (.ok p, fetched) =>
            if p.sub = "" then
              { status := some 403
                body := some { error := "Forbidden",
                               message := "Token validation failed: Invalid token payload - missing subject",
                               statusCode := none, code := none }
                user := none, nextCalled := false, verifierInvoked := true,
                resolverInvoked := fetched }
            else
              { status := none, body := none, user := some p, nextCalled := true,
                verifierInvoked := true, resolverInvoked := fetched }

/-! ## Local token signing (`generateToken`, `src/middleware/auth.ts` lines 86–99) -/

/-- The signer `generateToken` from `src/middleware/auth.ts`: build the payload
with `iat = now`, `exp = now + 15 * 60`, issuer and audience from the
configuration, and sign it with the shared secret `config.jwtSecret`
under `config.jwtAlgorithm` via `jwt.sign`.  `jwt.sign` called with a
plain secret and no `keyid` option emits a header without a `kid`. -/
def generateToken (cfg : EnvironmentConfig) (now : Int) (sub email : String)
    (name : Option String) : Token :=
  let p : JwtPayloadData :=
    { sub := sub, email := email, name := name, iat := now, exp := now + 15 * 60,
      iss := cfg.jwtIssuer, aud := cfg.jwtAudience }
  { header := { alg := cfg.jwtAlgorithm, kid := none }
    payload := p
    signature := mkSignature cfg.jwtAlgorithm cfg.jwtSecret p }

/-! ## Concrete fixtures

Concrete policies, keys and tokens used by the witness and
counterexample theorems below.  The values mirror the repository's
defaults (`JWT_AUDIENCE=eds-avatar-frontend`,
`JWT_VERIFY_ALGORITHMS=RS256,HS256`) and its test fixtures
(`src/test/helpers`, `test/auth-test.js`). -/

/-- A verification policy with the repository's default audience and
accepted algorithms. -/
def policyA : VerifyPolicy :=
  { audience := "eds-avatar-frontend"
    issuer := "https://issuer.example.com"
    algorithms := ["RS256", "HS256"] }

/-- A JWKS key set publishing one key under `kid1`. -/
def keysA : List (String × String) := [("kid1", "pubkey1")]

/-- A verifier environment at Unix time 1000 with `policyA` and `keysA`. -/
def envA : VerifyEnv := { policy := policyA, keys := keysA, now := 1000 }

/-- A payload with non-empty subject, unexpired at time 1000, matching
`policyA`'s issuer and audience. -/
def payloadA : JwtPayloadData :=
  { sub := "test-user-123", email := "test@example.com", name := none
    iat := 900, exp := 2000
    iss := "https://issuer.example.com", aud := "eds-avatar-frontend" }

/-- A token over `payloadA`, declaring an accepted algorithm, carrying
`kid1` and signed with the key the resolver can fetch. -/
def tokenA : Token :=
  { header := { alg := "RS256", kid := some "kid1" }
    payload := payloadA
    signature := mkSignature "RS256" "pubkey1" payloadA }

/-- A decoder mapping the bearer string `tokA` to `tokenA`. -/
def parseA : String → BearerToken :=
  fun s => if s = "tokA" then .parsed tokenA else .malformed

/-- The payload `payloadA` with an empty `sub` claim. -/
def payloadNoSub : JwtPayloadData := { payloadA with sub := "" }

/-- A token like `tokenA` but over the subject-less payload, still
correctly signed, unexpired, issuer- and audience-matching. -/
def tokenNoSub : Token :=
  { header := { alg := "RS256", kid := some "kid1" }
    payload := payloadNoSub
    signature := mkSignature "RS256" "pubkey1" payloadNoSub }

/-- A decoder mapping the bearer string `tokB` to `tokenNoSub`. -/
def parseNoSub : String → BearerToken :=
  fun s => if s = "tokB" then .parsed tokenNoSub else .malformed

/-- A token declaring the unaccepted algorithm `none` (the unsigned-JWT
algorithm of the spec's example). -/
def tokenBadAlg : Token :=
  { header := { alg := "none", kid := some "kid1" }
    payload := payloadA
    signature := "sig" }

/-- A configuration mirroring the repository defaults (32-character
secret, HS256 signing algorithm, `RS256,HS256` verify algorithms) with
issuer and audience equal to `policyA`'s. -/
def cfgA : EnvironmentConfig :=
  { port := 3001, nodeEnv := "test"
    jwtSecret := "0123456789abcdef0123456789abcdef"
    jwtIssuer := "https://issuer.example.com"
    jwtAudience := "eds-avatar-frontend"
    jwtAlgorithm := "HS256"
    jwtVerifyAlgorithms := ["RS256", "HS256"]
    jwksCacheMaxEntries := 5, jwksCacheMaxAgeMs := 600000
    jwksRequestTimeoutMs := 30000, deepgramTokenTtlMinutes := 15
    allowedOrigins := ["http://localhost:8080"] }

/-- An HS256 token signed with the statically configured shared secret
(`cfgA.jwtSecret`), with no `kid` header, over the valid `payloadA` —
exactly what `jwt.sign(payload, config.jwtSecret, {algorithm: 'HS256'})`
produces. -/
def tokenHS : Token :=
  { header := { alg := "HS256", kid := none }
    payload := payloadA
    signature := mkSignature "HS256" cfgA.jwtSecret payloadA }

/-- The token `generateToken` produces at time 900 for the repository's
test user under `cfgA`. -/
def genTokenA : Token := generateToken cfgA 900 "test-user-123" "test@example.com" none

/-- A decoder mapping the bearer string `gen` to the locally generated
token. -/
def parseGen : String → BearerToken :=
  fun s => if s = "gen" then .parsed genTokenA else .malformed

/-- The configuration `cfgA` with the issuer replaced by a string that
does not parse as an absolute URL. -/
def badIssuerConfig : EnvironmentConfig := { cfgA with jwtIssuer := "not-a-valid-url" }

/-- The verification success predicate used by the gate-level
invariant: the header carried a non-empty bearer token whose
verification by the Token Verifier succeeded with payload `p`. -/
def verifiedClaims (env : VerifyEnv) (h : Option String)
    (parse : String → BearerToken) (p : JwtPayloadData) : Prop :=
  match extractToken h with
  | none => False
  | some s => s ≠ "" ∧ (verifyToken env (parse s)).1 = .ok p

/-! ## Theorems -/

/-- C3 (confirmed): for every token whose declared header algorithm is
not a member of the policy's accepted-algorithms set, verification
fails with `UnacceptableAlgorithm`, and the remote key resolver is
never invoked (second component `false`), so the rejection precedes
any network key-fetch. -/
theorem auth_C3_algorithm_gate_before_key_fetch (env : VerifyEnv) (t : Token)
    (halg : t.header.alg ∉ env.policy.algorithms) :
    verifyToken env (.parsed t) = (.error .unacceptableAlgorithm, false) := by
  unfold verifyToken
  simp [halg]

/-- C3 witness: the token declaring algorithm `none` is rejected with
`UnacceptableAlgorithm` under the default policy, without invoking the
resolver. -/
theorem auth_C3_algorithm_gate_before_key_fetch_witness :
    verifyToken envA (.parsed tokenBadAlg) = (.error .unacceptableAlgorithm, false) :=
  auth_C3_algorithm_gate_before_key_fetch envA tokenBadAlg (by decide)

/-- C4 counterexample: an HS256 token (HS256 is in the accepted set)
signed with the statically configured shared secret but carrying no
`kid` header is rejected with `MissingKeyIdentifier` — verification
does require a `kid` and never consults the shared secret, refuting
the claim that symmetric algorithms use the static secret without
`kid`-based resolution. -/
theorem auth_C4_counterexample :
    tokenHS.header.alg ∈ envA.policy.algorithms ∧
    tokenHS.header.kid = none ∧
    tokenHS.signature = mkSignature tokenHS.header.alg cfgA.jwtSecret tokenHS.payload ∧
    verifyToken envA (.parsed tokenHS) = (.error .missingKeyIdentifier, false) := by
  decide

/-- C4 (amended): verification resolves keys exclusively through the
`kid`-based `getKey` callback for every algorithm, symmetric ones
included: any token whose declared algorithm is accepted but whose
header carries no `kid` fails with `MissingKeyIdentifier`; the
statically configured shared secret is never an input of
verification (it appears only in `generateToken`). -/
theorem auth_C4_kid_required_for_all_algorithms (env : VerifyEnv) (t : Token)
    (halg : t.header.alg ∈ env.policy.algorithms) (hkid : t.header.kid = none) :
    verifyToken env (.parsed t) = (.error .missingKeyIdentifier, false) := by
  unfold verifyToken getKey
  simp [halg, hkid]

/-- C4 witness: the shared-secret-signed HS256 token without `kid` is
rejected with `MissingKeyIdentifier`. -/
theorem auth_C4_kid_required_for_all_algorithms_witness :
    verifyToken envA (.parsed tokenHS) = (.error .missingKeyIdentifier, false) :=
  auth_C4_kid_required_for_all_algorithms envA tokenHS (by decide) (by decide)

/-- C7 (code bug): the JWKS lookup URL built at module load in
`src/middleware/auth.ts` does not preserve the issuer's scheme: for
the `http` issuer `http://localhost:3000/` it produces
`https://http://localhost:3000/.well-known/jwks.json` instead of the
`http://localhost:3000/.well-known/jwks.json` that the claim — and the
repository's own `constructJwksUri` test expectations — require. -/
theorem auth_C7_jwksUri_scheme_not_preserved :
    jwksUri "http://localhost:3000/" = "https://http://localhost:3000/.well-known/jwks.json" ∧
    jwksUri "http://localhost:3000/" ≠ "http://localhost:3000/.well-known/jwks.json" := by
  decide

/-- C8 (code bug): `validateConfig` performs no issuer-URL check: the
configuration whose issuer is `not-a-valid-url` (not an absolute URL)
passes startup validation, and the middleware then builds the JWKS URI
`https://not-a-valid-url/.well-known/jwks.json` from it, so the
failure can only surface at request time, contrary to the claim's
fail-fast requirement. -/
theorem auth_C8_invalid_issuer_accepted_at_startup :
    validateConfig badIssuerConfig = .ok () ∧
    jwksUri badIssuerConfig.jwtIssuer = "https://not-a-valid-url/.well-known/jwks.json" := by
  decide

/-- C10 (confirmed): a request whose `Authorization` header is exactly
`Bearer ` followed by the empty token takes the missing-token branch:
HTTP 401 with the missing-token body, `next` not called, and neither
the verifier nor the resolver invoked — never the 403 branch. -/
theorem auth_C10_empty_bearer_token (env : VerifyEnv) (parse : String → BearerToken) :
    authenticateToken env (some "Bearer ") parse = missingTokenResult := by
  rfl

/-- C1 counterexample: a token satisfying every hypothesis of the
claim as stated — decoded from the bearer header, declared algorithm
in the accepted set, `kid` resolvable to the key that signed it,
unexpired, issuer and audience exactly matching the policy — but with
an empty `sub` claim is rejected with 403: `req.user` is never set and
`next` is not called, so the claim's success conclusion fails. -/
theorem auth_C1_counterexample :
    tokenNoSub.header.alg ∈ envA.policy.algorithms ∧
    tokenNoSub.header.kid = some "kid1" ∧
    findKey envA.keys "kid1" = some "pubkey1" ∧
    tokenNoSub.signature = mkSignature tokenNoSub.header.alg "pubkey1" tokenNoSub.payload ∧
    envA.now < tokenNoSub.payload.exp ∧
    tokenNoSub.payload.iss = envA.policy.issuer ∧
    tokenNoSub.payload.aud = envA.policy.audience ∧
    (authenticateToken envA (some "Bearer tokB") parseNoSub).nextCalled = false ∧
    (authenticateToken envA (some "Bearer tokB") parseNoSub).user = none ∧
    (authenticateToken envA (some "Bearer tokB") parseNoSub).status = some 403 := by
  decide

/-- A helper for the success path: under the acceptance conditions —
accepted algorithm, resolvable `kid`, matching signature, unexpired,
issuer and audience matching — the verifier returns the token's
payload, having invoked the resolver. -/
theorem verifyToken_accepts (env : VerifyEnv) (t : Token) (k key : String)
    (halg : t.header.alg ∈ env.policy.algorithms)
    (hkid : t.header.kid = some k)
    (hkey : findKey env.keys k = some key)
    (hsig : t.signature = mkSignature t.header.alg key t.payload)
    (hexp : env.now < t.payload.exp)
    (hiss : t.payload.iss = env.policy.issuer)
    (haud : t.payload.aud = env.policy.audience) :
    verifyToken env (.parsed t) = (.ok t.payload, true) := by
  simp only [verifyToken, getKey, hkid, hkey]
  simp [halg, hsig, hexp, hiss, haud]

/-- C1 (amended): for every well-formed bearer token signed with a key
the resolver can fetch, using an algorithm in the accepted-algorithms
set, whose claims are non-expired, whose issuer and audience exactly
match the policy, and whose `sub` claim is non-empty, authentication
succeeds: `req.user` is set to the token's payload (so its subject
equals the token's `sub`) and `next` is called. -/
theorem auth_C1_valid_token_proceeds (env : VerifyEnv) (h : Option String)
    (parse : String → BearerToken) (s : String) (t : Token) (k key : String)
    (hex : extractToken h = some s) (hne : s ≠ "")
    (hparse : parse s = .parsed t)
    (halg : t.header.alg ∈ env.policy.algorithms)
    (hkid : t.header.kid = some k)
    (hkey : findKey env.keys k = some key)
    (hsig : t.signature = mkSignature t.header.alg key t.payload)
    (hexp : env.now < t.payload.exp)
    (hiss : t.payload.iss = env.policy.issuer)
    (haud : t.payload.aud = env.policy.audience)
    (hsub : t.payload.sub ≠ "") :
    authenticateToken env h parse =
      { status := none, body := none, user := some t.payload, nextCalled := true,
        verifierInvoked := true, resolverInvoked := true } := by
  unfold authenticateToken
  rw [hex]
  simp only [hne, reduceIte]
  rw [hparse, verifyToken_accepts env t k key halg hkid hkey hsig hexp hiss haud]
  simp [hsub]

/-- C1 witness: the concrete valid token `tokenA`, presented as
`Bearer tokA` under the default policy, is accepted: `req.user`
becomes its payload and the request proceeds. -/
theorem auth_C1_valid_token_proceeds_witness :
    authenticateToken envA (some "Bearer tokA") parseA =
      { status := none, body := none, user := some payloadA, nextCalled := true,
        verifierInvoked := true, resolverInvoked := true } :=
  auth_C1_valid_token_proceeds envA (some "Bearer tokA") parseA "tokA" tokenA "kid1" "pubkey1"
    (by decide) (by decide) (by decide) (by decide) (by decide) (by decide)
    (by decide) (by decide) (by decide) (by decide) (by decide)

/-- C2 (confirmed): for every request, `req.user` is assigned only
after verification and the non-empty-subject check both succeed, and
on every failure path (any response sent) `req.user` stays unset and
`next` is not called: whenever a status is sent no user is attached
and the request stops, and whenever a user is attached the request
proceeded, its subject is non-empty and the verifier accepted exactly
that payload. -/
theorem auth_C2_claims_only_after_validation (env : VerifyEnv) (h : Option String)
    (parse : String → BearerToken) :
    ((authenticateToken env h parse).status.isSome →
        (authenticateToken env h parse).user = none ∧
        (authenticateToken env h parse).nextCalled = false) ∧
    (∀ p, (authenticateToken env h parse).user = some p →
        (authenticateToken env h parse).nextCalled = true ∧ p.sub ≠ "" ∧
        verifiedClaims env h parse p) := by
  unfold authenticateToken
  cases hex : extractToken h with
  | none => simp [missingTokenResult]
  | some s =>
      by_cases hs : s = ""
      · simp [hs, missingTokenResult]
      · simp only [hs, reduceIte]
        rcases hv : verifyToken env (parse s) with ⟨res, fetched⟩
        cases res with
        | error e => simp
        | ok p =>
            by_cases hsub : p.sub = ""
            · simp [hsub]
            · simp only [hsub, reduceIte]
              constructor
              · intro hst
                simp at hst
              · intro q hq
                simp only [Option.some.injEq] at hq
                subst hq
                refine ⟨by simp, hsub, ?_⟩
                unfold verifiedClaims
                rw [hex]
                exact ⟨hs, by rw [hv]⟩

/-- C2 witness: at the missing-header input a 401 status is sent, and
the theorem yields that no user was attached and the request did not
proceed. -/
theorem auth_C2_claims_only_after_validation_witness :
    (authenticateToken envA none parseA).user = none ∧
    (authenticateToken envA none parseA).nextCalled = false :=
  (auth_C2_claims_only_after_validation envA none parseA).1 (by decide)

/-- C5 counterexample: at a concrete failing token (a malformed bearer
string), the gate does send HTTP 403, but its JSON body carries only
the `error` and `message` members: the `statusCode` and `code` members
the claim requires (`statusCode: 403`, an `AUTH_*` code) are absent,
so the claimed body shape is false. -/
theorem auth_C5_counterexample :
    (authenticateToken envA (some "Bearer zz") parseA).status = some 403 ∧
    (authenticateToken envA (some "Bearer zz") parseA).body =
      some { error := "Forbidden", message := "Token validation failed: jwt malformed",
             statusCode := none, code := none } ∧
    ((authenticateToken envA (some "Bearer zz") parseA).body.map ResponseBody.statusCode) =
      some none ∧
    ((authenticateToken envA (some "Bearer zz") parseA).body.map ResponseBody.code) =
      some none := by
  decide

/-- C5 (amended): every token verification failure — any verifier
rejection kind, and the gate's own missing-subject check — produces
HTTP 403 with the JSON body `{error: "Forbidden", message: "Token
validation failed: <reason>"}`; the body contains no `statusCode` and
no `code` member. -/
theorem auth_C5_rejection_response (env : VerifyEnv) (h : Option String)
    (parse : String → BearerToken) (s : String)
    (hex : extractToken h = some s) (hs : s ≠ "") :
    (∀ e, (verifyToken env (parse s)).1 = .error e →
        authenticateToken env h parse =
          { status := some 403
            body := some { error := "Forbidden",
                           message := "Token validation failed: " ++ e.message,
                           statusCode := none, code := none }
            user := none, nextCalled := false, verifierInvoked := true,
            resolverInvoked := (verifyToken env (parse s)).2 }) ∧
    (∀ p, (verifyToken env (parse s)).1 = .ok p → p.sub = "" →
        authenticateToken env h parse =
          { status := some 403
            body := some { error := "Forbidden",
                           message := "Token validation failed: Invalid token payload - missing subject",
                           statusCode := none, code := none }
            user := none, nextCalled := false, verifierInvoked := true,
            resolverInvoked := (verifyToken env (parse s)).2 }) := by
  unfold authenticateToken
  rw [hex]
  simp only [hs, reduceIte]
  rcases hv : verifyToken env (parse s) with ⟨res, fetched⟩
  cases res with
  | error e' =>
      constructor
      · intro e he
        rw [Except.error.injEq] at he
        subst he
        rfl
      · intro p hp
        simp at hp
  | ok p' =>
      constructor
      · intro e he
        simp at he
      · intro p hp hpsub
        rw [Except.ok.injEq] at hp
        subst hp
        simp [hpsub]

/-- C5 witness: applying the rejection-response theorem at the
malformed bearer string `zz` yields the concrete 403 response whose
body has only `error` and `message` set. -/
theorem auth_C5_rejection_response_witness :
    authenticateToken envA (some "Bearer zz") parseA =
      { status := some 403
        body := some { error := "Forbidden",
                       message := "Token validation failed: jwt malformed",
                       statusCode := none, code := none }
        user := none, nextCalled := false, verifierInvoked := true,
        resolverInvoked := false } :=
  (auth_C5_rejection_response envA (some "Bearer zz") parseA "zz"
      (by decide) (by decide)).1 .malformedToken (by decide)

/-- C6 counterexample: two concrete inputs refute the claim as stated.
With no `Authorization` header the gate does send 401, but the body is
`{error: "Unauthorized", message: "Access token is required"}` with no
`statusCode` and no `code` member (the claim requires `statusCode:
401` and `code: "AUTH_TOKEN_MISSING"`).  And the header `Bearer  x`
(two spaces — not of the exact one-space `Bearer <token>` form) is not
rejected with 401: the verifier is invoked and the outcome is the 403
branch. -/
theorem auth_C6_counterexample :
    authenticateToken envA none parseA = missingTokenResult ∧
    (missingTokenResult.body.map ResponseBody.statusCode) = some none ∧
    (missingTokenResult.body.map ResponseBody.code) = some none ∧
    (authenticateToken envA (some "Bearer  x") (fun _ => .malformed)).verifierInvoked = true ∧
    (authenticateToken envA (some "Bearer  x") (fun _ => .malformed)).status = some 403 := by
  decide

/-- C6 (amended): whenever the `Authorization` header is absent, does
not start with the case-sensitive prefix `Bearer ` (one space
included), or has nothing after that prefix, the gate responds HTTP
401 with body `{error: "Unauthorized", message: "Access token is
required"}` (no `statusCode` or `code` members), without invoking the
verifier and without calling `next`; a header that starts with
`Bearer ` followed by any non-empty remainder — extra spaces included
— is instead passed to the verifier. -/
theorem auth_C6_missing_or_malformed_header (env : VerifyEnv) (h : Option String)
    (parse : String → BearerToken)
    (hm : ∀ s, h = some s → strStartsWith s "Bearer " = false ∨ strDrop s 7 = "") :
    authenticateToken env h parse = missingTokenResult := by
  unfold authenticateToken extractToken
  cases h with
  | none => rfl
  | some s =>
      rcases hm s rfl with hc | hc
      · simp [hc]
      · by_cases hst : strStartsWith s "Bearer "
        · simp [hst, hc]
        · simp [hst]

/-- C6 witness: the lowercase-scheme header `bearer x` (wrong case,
hence not starting with `Bearer `) produces the 401 missing-token
response. -/
theorem auth_C6_missing_or_malformed_header_witness :
    authenticateToken envA (some "bearer x") parseA = missingTokenResult :=
  auth_C6_missing_or_malformed_header envA (some "bearer x") parseA
    (by intro s hs
        rw [Option.some.injEq] at hs
        subst hs
        exact Or.inl (by decide))

/-- C9 (code bug): the local-sign/verify round trip fails.  The token
`generateToken` produces for the test user under `cfgA` — signed with
the shared secret, carrying no `kid` header — satisfies every matching
condition of the claim (non-empty `sub`, accepted algorithm, issuer
and audience equal to the policy's, unexpired at the verifier's
clock), yet presenting it as a bearer credential is rejected with HTTP
403: `getKey` demands a `kid` and resolves keys only through JWKS, so
`next` is never called and no user is attached, where the claim (and
the repository's `test/auth-test.js` expectations) require success
with the original subject. -/
theorem auth_C9_round_trip_fails :
    genTokenA.payload.sub = "test-user-123" ∧
    genTokenA.header.alg ∈ envA.policy.algorithms ∧
    genTokenA.payload.iss = envA.policy.issuer ∧
    genTokenA.payload.aud = envA.policy.audience ∧
    envA.now < genTokenA.payload.exp ∧
    genTokenA.header.kid = none ∧
    (authenticateToken envA (some "Bearer gen") parseGen).status = some 403 ∧
    (authenticateToken envA (some "Bearer gen") parseGen).nextCalled = false ∧
    (authenticateToken envA (some "Bearer gen") parseGen).user = none := by
  decide
